import Mathlib

/-!
Verification of the configuration wiring in `src/train.py` of frctools/model.

The script fine-tunes a sentence-embedding model ("Qwen/Qwen3-Embedding-8B")
on five named training datasets, routing each dataset name to a loss object
through the `losses` dictionary, configuring the run through
`SentenceTransformerTrainingArguments`, delegating to
`SentenceTransformerTrainer`, and finally persisting the model with
`model.save_pretrained("qwen-trained")`.

The embedding below mirrors the script's declarative data: the model
reference, the dataset dictionaries, the loss objects and the loss mapping,
the training-argument record, trainer construction, and the top-to-bottom
order of the script's effectful statements.
-/

namespace Train

/-- A reference to a model object.  The script creates a single
`SentenceTransformer` instance; object identity is modelled by an id. -/
structure ModelRef where
  id : Nat
deriving DecidableEq

/-- `model = SentenceTransformer("Qwen/Qwen3-Embedding-8B")` (train.py line 7):
the one model instance of the run. -/
def model : ModelRef := ⟨0⟩

/-- The model name the script loads (train.py line 7). -/
def modelName : String := "Qwen/Qwen3-Embedding-8B"

/-- Record shapes of the datasets, as declared by the comments in
train.py (lines 10-17 and 31-38): an unscored pair, a pair with a
categorical class, a pair with a continuous score, or a triplet. -/
inductive RecordShape
  | pair
  | pairClass
  | pairScore
  | triplet
deriving DecidableEq

/-- A dataset handle as produced by `load_dataset`: repository id, optional
configuration name, split expression, and the record shape stated by the
adjacent source comment (`none` when the source states no shape). -/
structure Dataset where
  repo : String
  config : Option String
  split : String
  shape : Option RecordShape
deriving DecidableEq

/-- train.py line 11: `load_dataset("sentence-transformers/amazon-qa", "pair",
split="train[:10000]")`, commented `(anchor, positive)`. -/
def all_nli_pair_train : Dataset :=
  ⟨"sentence-transformers/amazon-qa", some "pair", "train[:10000]", some RecordShape.pair⟩

/-- train.py line 13: `load_dataset("sentence-transformers/stsb",
split="train[:10000]")`, commented `(sentence1, sentence2) + score`. -/
def stsb_pair_score_train : Dataset :=
  ⟨"sentence-transformers/stsb", none, "train[:10000]", some RecordShape.pairScore⟩

/-- train.py line 15: `load_dataset("sentence-transformers/quora-duplicates",
"pair", split="train[:10000]")`, commented `(anchor, positive)`. -/
def quora_pair_train : Dataset :=
  ⟨"sentence-transformers/quora-duplicates", some "pair", "train[:10000]", some RecordShape.pair⟩

/-- train.py line 17: `load_dataset("sentence-transformers/natural-questions",
split="train[:10000]")`, commented `(query, answer)`: an unscored pair. -/
def natural_questions_train : Dataset :=
  ⟨"sentence-transformers/natural-questions", none, "train[:10000]", some RecordShape.pair⟩

/-- train.py line 18: `load_dataset("graham-sh/frc-rules-synthetic",
split="train[:10000]")`; the source states no record shape for it. -/
def rules_synthetic : Dataset :=
  ⟨"graham-sh/frc-rules-synthetic", none, "train[:10000]", none⟩

/-- train.py line 32: the all-nli triplet dev split,
commented `(anchor, positive, negative)`. -/
def all_nli_triplet_dev : Dataset :=
  ⟨"sentence-transformers/all-nli", some "triplet", "dev", some RecordShape.triplet⟩

/-- train.py line 34: the stsb validation split,
commented `(sentence1, sentence2, score)`. -/
def stsb_pair_score_dev : Dataset :=
  ⟨"sentence-transformers/stsb", none, "validation", some RecordShape.pairScore⟩

/-- train.py line 36: the quora pair dev slice, commented `(anchor, positive)`. -/
def quora_pair_dev : Dataset :=
  ⟨"sentence-transformers/quora-duplicates", some "pair", "train[10000:11000]", some RecordShape.pair⟩

/-- train.py line 38: the natural-questions dev slice, commented `(query, answer)`. -/
def natural_questions_dev : Dataset :=
  ⟨"sentence-transformers/natural-questions", none, "train[10000:11000]", some RecordShape.pair⟩

/-- The training-dataset dictionary of train.py lines 22-28, as an
association list in the source's insertion order. -/
def train_dataset : List (String × Dataset) :=
  [("all-nli-pair", all_nli_pair_train),
   ("stsb", stsb_pair_score_train),
   ("quora", quora_pair_train),
   ("natural-questions", natural_questions_train),
   ("rules-synthetic", rules_synthetic)]

/-- The evaluation-dataset dictionary of train.py lines 41-46. -/
def eval_dataset : List (String × Dataset) :=
  [("all-nli-triplet", all_nli_triplet_dev),
   ("stsb", stsb_pair_score_dev),
   ("quora", quora_pair_dev),
   ("natural-questions", natural_questions_dev)]

/-- The three loss classes the script instantiates (train.py lines 50-54). -/
inductive LossKind
  | mnrl
  | softmax
  | cosent
deriving DecidableEq

/-- A loss object: object identity (id), its class, and the model reference
it was constructed against. -/
structure LossObj where
  id : Nat
  kind : LossKind
  model : ModelRef
deriving DecidableEq

/-- `mnrl_loss = MultipleNegativesRankingLoss(model)` (train.py line 50). -/
def mnrl_loss : LossObj := ⟨1, LossKind.mnrl, model⟩

/-- `softmax_loss = SoftmaxLoss(model)` (train.py line 52). -/
def softmax_loss : LossObj := ⟨2, LossKind.softmax, model⟩

/-- `cosent_loss = CoSENTLoss(model)` (train.py line 54). -/
def cosent_loss : LossObj := ⟨3, LossKind.cosent, model⟩

/-- Which record shapes each loss class accepts, per the source comments on
train.py lines 49, 51, 53: MultipleNegativesRankingLoss takes
`(anchor, positive)` or `(anchor, positive, negative)`, SoftmaxLoss takes
`(sentence_A, sentence_B) + class`, CoSENTLoss takes
`(sentence_A, sentence_B) + score`. -/
def lossCompatible : LossKind → RecordShape → Bool
  | LossKind.mnrl, RecordShape.pair => true
  | LossKind.mnrl, RecordShape.triplet => true
  | LossKind.softmax, RecordShape.pairClass => true
  | LossKind.cosent, RecordShape.pairScore => true
  | _, _ => false

/-- The name-to-loss dictionary of train.py lines 58-64. -/
def losses : List (String × LossObj) :=
  [("all-nli-pair", mnrl_loss),
   ("stsb", cosent_loss),
   ("quora", mnrl_loss),
   ("natural-questions", mnrl_loss),
   ("rules-synthetic", mnrl_loss)]

/-- The `BatchSamplers` enumeration of the training library
(`sentence_transformers.training_args`). -/
inductive BatchSamplers
  | batchSampler
  | noDuplicates
  | groupByLabel
deriving DecidableEq

/-- Evaluation/save/logging cadence strategies ("no", "steps", "epoch"). -/
inductive IntervalStrategy
  | no
  | steps
  | epoch
deriving DecidableEq

/-- The hyperparameter record built on train.py lines 65-84, with exactly the
fields the script sets. -/
structure SentenceTransformerTrainingArguments where
  output_dir : String
  num_train_epochs : Nat
  per_device_train_batch_size : Nat
  per_device_eval_batch_size : Nat
  warmup_ratio : Rat
  fp16 : Bool
  bf16 : Bool
  batch_sampler : BatchSamplers
  eval_strategy : IntervalStrategy
  eval_steps : Nat
  save_strategy : IntervalStrategy
  save_steps : Nat
  save_total_limit : Nat
  logging_steps : Nat
  run_name : String
deriving DecidableEq

/-- `args = SentenceTransformerTrainingArguments(...)` (train.py lines 65-84). -/
def args : SentenceTransformerTrainingArguments :=
  ⟨"models/mpnet-base-all-nli-triplet", 1, 16, 16, (1 : Rat)/10, true, false,
   BatchSamplers.noDuplicates, IntervalStrategy.steps, 100,
   IntervalStrategy.steps, 100, 2, 100, "mpnet-base-all-nli-triplet"⟩

/-- The trainer object of train.py lines 88-94: the model reference, both
dataset dictionaries, the loss mapping, and the argument record. -/
structure SentenceTransformerTrainer where
  model : ModelRef
  train_dataset : List (String × Dataset)
  eval_dataset : List (String × Dataset)
  loss : List (String × LossObj)
  args : SentenceTransformerTrainingArguments
deriving DecidableEq

/-- Configuration errors raised at trainer construction. -/
inductive ConfigError
  | missingLoss (key : String)
deriving DecidableEq

/-- Modelled from the spec: `SentenceTransformerTrainer.__init__` is
external-library code absent from src/.  Per the spec, for every key present
in the training-dataset mapping a corresponding key must be present in the
loss mapping, and absence fails with a configuration error at
trainer-construction time rather than silently skipping the dataset. -/
def mkSentenceTransformerTrainer (m : ModelRef)
    (td ed : List (String × Dataset)) (ld : List (String × LossObj))
    (a : SentenceTransformerTrainingArguments) :
    Except ConfigError SentenceTransformerTrainer :=
  match td.find? (fun p => decide (p.1 ∉ ld.map Prod.fst)) with
  | some p => Except.error (ConfigError.missingLoss p.1)
  | none => Except.ok ⟨m, td, ed, ld, a⟩

/-- `trainer = SentenceTransformerTrainer(model=model, train_dataset=...,
eval_dataset=..., loss=losses, args=args)` (train.py lines 88-94). -/
def trainer : Except ConfigError SentenceTransformerTrainer :=
  mkSentenceTransformerTrainer model train_dataset eval_dataset losses args

/-- Number of optimization steps a pipeline run performs, given a function
`f` saying how many steps a successfully constructed trainer would run:
a failed construction runs none. -/
def stepsRun (f : SentenceTransformerTrainer → Nat) :
    Except ConfigError SentenceTransformerTrainer → Nat
  | Except.error _ => 0
  | Except.ok t => f t

/-- `model.save_pretrained("qwen-trained")` (train.py line 98): target
directory of the final export. -/
def saveDir : String := "qwen-trained"

/-- The object on which `save_pretrained` is called (train.py line 98). -/
def saveTarget : ModelRef := model

/-- The effectful statements of train.py, in source order. -/
inductive Step
  | loadModel
  | loadTrainDatasets
  | buildTrainDatasetMapping
  | loadEvalDatasets
  | buildEvalDatasetMapping
  | constructLossObjects
  | buildLossMapping
  | buildArgs
  | buildTrainer
  | trainCall
  | savePretrained
deriving DecidableEq

/-- The top-to-bottom order of train.py: model load (line 7), train-dataset
loads (11-18), train mapping (22-28), eval-dataset loads (32-38), eval
mapping (41-46), loss construction (50-54), loss mapping (58-64), args
(65-84), trainer (88-94), `trainer.train()` (95),
`model.save_pretrained` (98). -/
def scriptTrace : List Step :=
  [Step.loadModel, Step.loadTrainDatasets, Step.buildTrainDatasetMapping,
   Step.loadEvalDatasets, Step.buildEvalDatasetMapping,
   Step.constructLossObjects, Step.buildLossMapping, Step.buildArgs,
   Step.buildTrainer, Step.trainCall, Step.savePretrained]

/-- Opaque model state (parameters), for stating that loss construction does
not mutate it. -/
structure ModelState where
  weights : List Int
deriving DecidableEq

/-- Modelled from the spec: the loss constructors
(`MultipleNegativesRankingLoss`, `SoftmaxLoss`, `CoSENTLoss`) are
external-library code absent from src/; per the spec a loss object is
stateless aside from holding a reference to the model.  Constructing a list
of loss objects threads the model state through and returns the objects,
each holding the model reference; `n` numbers the objects created. -/
def constructLosses : Nat → List LossKind → ModelRef → ModelState →
    List LossObj × ModelState
  | _, [], _, st => ([], st)
  | n, k :: ks, r, st =>
      let rest := constructLosses (n + 1) ks r st
      (⟨n, k, r⟩ :: rest.1, rest.2)

end Train

namespace Train

/-- C1: the key set of the loss mapping equals the key set of the
training-dataset mapping: a name is a key of `losses` exactly when it is a
key of `train_dataset`. -/
theorem losses_keys_eq_train_dataset_keys (k : String) :
    k ∈ losses.map Prod.fst ↔ k ∈ train_dataset.map Prod.fst := by
  have h : losses.map Prod.fst = train_dataset.map Prod.fst := rfl
  rw [h]

/-- C2: whenever some training-dataset key has no entry in the loss mapping,
trainer construction fails with a configuration error naming a key, and no
optimization step runs, whatever step count a successful trainer would
have run. -/
theorem trainer_construction_fails_on_missing_loss
    (m : ModelRef) (td ed : List (String × Dataset))
    (ld : List (String × LossObj)) (a : SentenceTransformerTrainingArguments)
    (h : ∃ k, k ∈ td.map Prod.fst ∧ k ∉ ld.map Prod.fst) :
    (∃ k, mkSentenceTransformerTrainer m td ed ld a =
        Except.error (ConfigError.missingLoss k))
    ∧ ∀ f : SentenceTransformerTrainer → Nat,
        stepsRun f (mkSentenceTransformerTrainer m td ed ld a) = 0 := by
  obtain ⟨k, hk, hnk⟩ := h
  cases hres : td.find? (fun p => decide (p.1 ∉ ld.map Prod.fst)) with
  | none =>
      exfalso
      rw [List.find?_eq_none] at hres
      obtain ⟨p, hp, hpk⟩ := List.mem_map.mp hk
      have : p.1 ∉ ld.map Prod.fst := by rw [hpk]; exact hnk
      exact hres p hp (decide_eq_true this)
  | some q =>
      have heq : mkSentenceTransformerTrainer m td ed ld a =
          Except.error (ConfigError.missingLoss q.1) := by
        unfold mkSentenceTransformerTrainer
        rw [hres]
      exact ⟨⟨q.1, heq⟩, fun f => by rw [heq]; rfl⟩

/-- C2 witness: the spec's scenario, train mapping {"A": pair dataset,
"B": triplet dataset} and loss mapping {"A": mnrl_loss}: construction fails
with a configuration error. -/
theorem trainer_construction_fails_on_missing_loss_witness :
    ∃ k, mkSentenceTransformerTrainer model
        [("A", all_nli_pair_train), ("B", all_nli_triplet_dev)]
        [] [("A", mnrl_loss)] args =
      Except.error (ConfigError.missingLoss k) :=
  (trainer_construction_fails_on_missing_loss model
    [("A", all_nli_pair_train), ("B", all_nli_triplet_dev)]
    [] [("A", mnrl_loss)] args ⟨"B", by decide⟩).1

/-- C3 counterexample: the claim that every evaluation key is a training key
fails on the code: "all-nli-triplet" is a key of `eval_dataset` but not of
`train_dataset` (the pair training set is keyed "all-nli-pair"). -/
theorem eval_key_all_nli_triplet_not_a_train_key :
    "all-nli-triplet" ∈ eval_dataset.map Prod.fst
    ∧ "all-nli-triplet" ∉ train_dataset.map Prod.fst := by
  decide

/-- C3 amended: every key of the evaluation-dataset mapping other than
"all-nli-triplet" is also a key of the training-dataset mapping. -/
theorem eval_keys_sub_train_keys_except_all_nli_triplet (k : String)
    (hk : k ∈ eval_dataset.map Prod.fst) (hne : k ≠ "all-nli-triplet") :
    k ∈ train_dataset.map Prod.fst := by
  fin_cases hk
  · exact absurd rfl hne
  · decide
  · decide
  · decide

/-- C3 amended, witness at the concrete key "stsb". -/
theorem eval_keys_sub_train_keys_except_all_nli_triplet_witness :
    "stsb" ∈ train_dataset.map Prod.fst :=
  eval_keys_sub_train_keys_except_all_nli_triplet "stsb" (by decide) (by decide)

/-- C4: every training-dataset name has exactly one entry in the loss
mapping; the scored-pair dataset "stsb" is mapped to the CoSENT loss, every
dataset whose declared shape is an unscored pair is mapped to the MNRL
ranking loss, and in every case the assigned loss's expected record shape is
compatible with the dataset's declared shape. -/
theorem each_train_dataset_routed_to_shape_compatible_loss :
    (train_dataset.all fun p =>
        (losses.filter fun q => q.1 == p.1).length == 1)
    ∧ losses.lookup "stsb" = some cosent_loss
    ∧ (train_dataset.all fun p =>
        p.2.shape != some RecordShape.pair
          || losses.lookup p.1 == some mnrl_loss)
    ∧ (train_dataset.all fun p =>
        match p.2.shape, losses.lookup p.1 with
        | some s, some l => lossCompatible l.kind s
        | _, _ => true) := by
  decide

/-- C5: the training configuration sets exactly the declared hyperparameter
surface: the checkpoint output directory, 1 epoch, train and eval batch
sizes 16, warmup ratio 1/10, fp16 on and bf16 off, the no-duplicates batch
sampler, evaluation and save on a 100-step cadence, checkpoint retention
limit 2, logging every 100 steps, and the run name. -/
theorem training_arguments_surface :
    args.output_dir = "models/mpnet-base-all-nli-triplet"
    ∧ args.num_train_epochs = 1
    ∧ args.per_device_train_batch_size = 16
    ∧ args.per_device_eval_batch_size = 16
    ∧ args.warmup_ratio = (1 : Rat)/10
    ∧ args.fp16 = true
    ∧ args.bf16 = false
    ∧ args.batch_sampler = BatchSamplers.noDuplicates
    ∧ args.eval_strategy = IntervalStrategy.steps
    ∧ args.eval_steps = 100
    ∧ args.save_strategy = IntervalStrategy.steps
    ∧ args.save_steps = 100
    ∧ args.save_total_limit = 2
    ∧ args.logging_steps = 100
    ∧ args.run_name = "mpnet-base-all-nli-triplet" := by
  refine ⟨rfl, rfl, rfl, rfl, rfl, rfl, rfl, rfl, rfl, rfl, rfl, rfl, rfl, rfl, rfl⟩

/-- C6: in the script's statement order, `trainer.train()` and
`model.save_pretrained` each occur exactly once, the save is the last
statement, and the training call strictly precedes it: persistence happens
only after training completes, never before or during. -/
theorem save_after_train :
    scriptTrace.count Step.trainCall = 1
    ∧ scriptTrace.count Step.savePretrained = 1
    ∧ scriptTrace.indexOf Step.trainCall < scriptTrace.indexOf Step.savePretrained
    ∧ scriptTrace.getLast? = some Step.savePretrained := by
  decide

/-- C7: constructing any number of loss objects against the same model
leaves the model's state unchanged. -/
theorem loss_construction_preserves_model_state
    (n : Nat) (ks : List LossKind) (r : ModelRef) (st : ModelState) :
    (constructLosses n ks r st).2 = st := by
  induction ks generalizing n with
  | nil => rfl
  | cons k ks ih => simpa [constructLosses] using ih (n + 1)

/-- C8: a single shared model instance flows through the run: the three loss
objects hold the model reference, every value of the loss mapping holds it,
the constructed trainer holds it, and the object persisted at the end is it. -/
theorem single_model_instance_flows_through :
    mnrl_loss.model = model
    ∧ softmax_loss.model = model
    ∧ cosent_loss.model = model
    ∧ (losses.all fun p => p.2.model == model) = true
    ∧ Except.map (fun t => t.model) trainer = Except.ok model
    ∧ saveTarget = model := by
  refine ⟨rfl, rfl, rfl, by decide, rfl, rfl⟩

/-- C9: the softmax (classification) loss is constructed but is never a
value of the loss mapping: every value is either the shared ranking-loss
object or the score loss; the ranking loss is bound to exactly the four
keys "all-nli-pair", "quora", "natural-questions", "rules-synthetic" and the
score loss to exactly the key "stsb". -/
theorem softmax_loss_unused_in_loss_mapping :
    (losses.all fun p => p.2 == mnrl_loss || p.2 == cosent_loss) = true
    ∧ softmax_loss ∉ losses.map Prod.snd
    ∧ (losses.filter fun p => p.2 == mnrl_loss).map Prod.fst =
        ["all-nli-pair", "quora", "natural-questions", "rules-synthetic"]
    ∧ (losses.filter fun p => p.2 == cosent_loss).map Prod.fst = ["stsb"] := by
  decide

/-- C10: the final model is persisted to "qwen-trained", which differs from
the checkpoint output directory "models/mpnet-base-all-nli-triplet". -/
theorem save_dir_distinct_from_output_dir :
    saveDir = "qwen-trained"
    ∧ args.output_dir = "models/mpnet-base-all-nli-triplet"
    ∧ saveDir ≠ args.output_dir := by
  refine ⟨rfl, rfl, by decide⟩

end Train
